import Mathlib

/-!
Verification development for the pannellum-js-tiles-generator repository.

The TypeScript sources are shallowly embedded as Lean definitions:

* `src/config-generator.ts` : `calculateMaxLevel` (the floating-point
  expression `Math.ceil(Math.log(c / e) / Math.log(2))` is modelled by its
  exact real value, the least `k` with `c / e ≤ 2 ^ k`, computed on naturals
  as `ceilLog2 ⌈c / e⌉`);
* `src/tiler.ts` : the `Tiler` class (tile pyramid, fallback tiles, per-tile
  paths, progress values; `Promise.all` over a batch keeps input order, so a
  batch is modelled as an ordered list);
* `src/utils/memory-manager.ts` : `MemoryManager` with JS `Set` iteration
  modelled as insertion-ordered lists and a thrown JS exception modelled as
  `Except.error`;
* `src/reprojector.ts` : the allocation / validation / disposal order of
  `Reprojector.reprojectToCubeFaces` as a state-passing function over the
  tracker state;
* `src/PannellumTiler.ts` : `validateConfig`, the event emitter `emit`, the
  per-call progress broadcaster, the fallback-tile call with its literal
  `1024` argument, and `createTileStream`.
-/

namespace PannellumTiles

/-! ### config-generator.ts -/

/-- Fuel-driven computation of the least `k` with `q ≤ 2 ^ k`; structural
recursion on the fuel keeps it kernel-reducible.  `clog2Fuel fuel q` is
correct whenever `q ≤ fuel`. -/
def clog2Fuel : Nat → Nat → Nat
  | 0, _ => 0
  | fuel + 1, q => if q ≤ 1 then 0 else clog2Fuel fuel ((q + 1) / 2) + 1

/-- Least `k` with `q ≤ 2 ^ k`: the exact value of `Math.ceil(Math.log q /
Math.log 2)` for a positive integer `q`. -/
def ceilLog2 (q : Nat) : Nat := clog2Fuel q q

/-- Ceiling division, `Math.ceil(a / b)` on naturals. -/
def ceilDiv (a b : Nat) : Nat := (a + b - 1) / b

/-- `calculateMaxLevel` from `src/config-generator.ts`.  The real-valued
`Math.ceil(Math.log(cubeResolution / effectiveTileSize) / Math.log(2))` is
`ceilLog2 (ceilDiv cubeResolution effectiveTileSize)`: for positive naturals,
the least `k` with `c / e ≤ 2 ^ k` equals the least `k` with `⌈c / e⌉ ≤ 2 ^ k`. -/
def calculateMaxLevel (cubeResolution tileSize : Nat) : Nat :=
  let effectiveTileSize := min tileSize cubeResolution
  let levels := ceilLog2 (ceilDiv cubeResolution effectiveTileSize) + 1
  if 2 ≤ levels ∧ cubeResolution / 2 ^ (levels - 2) = effectiveTileSize then
    max 1 (levels - 1)
  else
    max 1 levels

/-! ### tiler.ts : data model -/

/-- Output image format (`'jpeg' | 'webp'`). -/
inductive ImageFormat where
  | jpeg
  | webp
deriving DecidableEq

/-- File extension chosen by the tiler and the config generator:
`imageFormat === 'webp' ? 'webp' : 'jpg'`. -/
def extFor : ImageFormat → String
  | ImageFormat.webp => "webp"
  | ImageFormat.jpeg => "jpg"

/-- A cube face produced by the reprojector: name and square resolution
(the raster itself is external). -/
structure CubeFace where
  name : String
  resolution : Nat
deriving DecidableEq

/-- Canonical Pannellum face identifiers in render order
(`FACE_NAMES` in `src/PannellumTiler.ts`). -/
def FACE_NAMES : List String := ["f", "r", "b", "l", "u", "d"]

/-- The six cube faces handed from the reprojector to the tiler, all at the
same resolution. -/
def facesOf (cubeResolution : Nat) : List CubeFace :=
  FACE_NAMES.map fun n => { name := n, resolution := cubeResolution }

/-- A generated tile: the fields of the TS `Tile` record that the pipeline
computes (the encoded blob is external; `outputSize` records the pixel edge
of the canvas the crop is drawn into before encoding). -/
structure TileRec where
  path : String
  level : Nat
  face : String
  x : Nat
  y : Nat
  outputSize : Nat
deriving DecidableEq

/-- `tilesPerSide = Math.ceil(currentResolution / tileSize)` from
`Tiler.generateFaceTiles`. -/
def tilesPerSide (resolution tileSize : Nat) : Nat := ceilDiv resolution tileSize

/-- Row-major tile coordinates: `for y … for x … push({x, y})`. -/
def tileCoords (n : Nat) : List (Nat × Nat) :=
  (List.range n).flatMap fun y => (List.range n).map fun x => (x, y)

/-- `Tiler.buildTile`: path `{level}/{face}/{x}_{y}.{ext}` and the tile
record fields; the crop is encoded into a `tileSize × tileSize` canvas. -/
def buildTile (fmt : ImageFormat) (tileSize level : Nat) (faceName : String)
    (x y : Nat) : TileRec :=
  { path := toString level ++ "/" ++ faceName ++ "/" ++ toString x ++ "_" ++
      toString y ++ "." ++ extFor fmt
    level := level
    face := faceName
    x := x
    y := y
    outputSize := tileSize }

/-- The `(level, resolution)` pairs visited by the level loop of
`Tiler.generateFaceTiles`: level counts down from `maxLevel` to `1` and the
resolution is halved (floor) before each level below the maximum. -/
def levelListAux : Nat → Nat → List (Nat × Nat)
  | 0, _ => []
  | n + 1, res => (n + 1, res) :: levelListAux n (res / 2)

/-- `Tiler.generateFaceTiles` (tile output only): all levels of one face,
levels descending, coordinates row-major.  Batches of ten concurrent encodes
are appended in batch order once the whole batch resolves (`Promise.all`
keeps input order), so the flat list is the enumeration order. -/
def generateFaceTiles (fmt : ImageFormat) (tileSize maxLevel : Nat)
    (face : CubeFace) : List TileRec :=
  (levelListAux maxLevel face.resolution).flatMap fun lr =>
    (tileCoords (tilesPerSide lr.2 tileSize)).map fun p =>
      buildTile fmt tileSize lr.1 face.name p.1 p.2

/-- `Tiler.generateTilePyramid` (tile output only): faces in input order.
The TS `maxLevel` is a caller-controllable JS number, so it is taken as an
`Int`; the level loop `for (level = maxLevel; level >= 1; level--)` runs
`max 0 maxLevel` times. -/
def generateTilePyramid (fmt : ImageFormat) (faces : List CubeFace)
    (tileSize : Nat) (maxLevel : Int) : List TileRec :=
  faces.flatMap (generateFaceTiles fmt tileSize maxLevel.toNat)

/-- `Tiler.generateFallbackTiles`: one tile per face, level `0`, path
`fallback/{face}.{ext}`, whole face scaled into a
`fallbackSize × fallbackSize` canvas. -/
def generateFallbackTiles (fmt : ImageFormat) (faces : List CubeFace)
    (fallbackSize : Nat) : List TileRec :=
  faces.map fun face =>
    { path := "fallback/" ++ face.name ++ "." ++ extFor fmt
      level := 0
      face := face.name
      x := 0
      y := 0
      outputSize := fallbackSize }

/-- The resolution reached `n` halving steps below the top level:
`res(maxLevel) = cubeResolution`, `res(L) = ⌊res(L+1) / 2⌋`, exactly the
`currentResolution` update of the level loop. -/
def levelResolution (cubeResolution : Nat) : Nat → Nat
  | 0 => cubeResolution
  | n + 1 => levelResolution cubeResolution n / 2

/-! ### tiler.ts : progress values -/

/-- `TILE_BATCH_SIZE` from `src/tiler.ts`. -/
def TILE_BATCH_SIZE : Nat := 10

/-- The `completedInLevel` value reported after each encode batch:
`min(i + TILE_BATCH_SIZE, tileCoords.length)` for `i = 0, 10, 20, …`. -/
def batchEndpoints (count : Nat) : List Nat :=
  (List.range (ceilDiv count TILE_BATCH_SIZE)).map fun b =>
    min ((b + 1) * TILE_BATCH_SIZE) count

/-- Per-face progress values reported by `Tiler.generateFaceTiles`:
`(maxLevel - level + completedInLevel / tileCoords.length) / totalLevels`
after each batch. -/
def faceProgressValues (tileSize maxLevel resolution : Nat) : List ℚ :=
  (levelListAux maxLevel resolution).flatMap fun lr =>
    let n := tilesPerSide lr.2 tileSize
    (batchEndpoints (n * n)).map fun completed =>
      (((maxLevel - lr.1 : Nat) : ℚ) + (completed : ℚ) / ((n * n : Nat) : ℚ)) /
        (maxLevel : ℚ)

/-- Progress values reported by `Tiler.generateTilePyramid`: each per-face
value weighted as `(faceIndex + levelProgress) / totalFaces`, then the
unconditional completion report `progress: 1`. -/
def tilingProgressValues (faces : List CubeFace) (tileSize : Nat)
    (maxLevel : Int) : List ℚ :=
  (faces.enum.flatMap fun fi =>
    (faceProgressValues tileSize maxLevel.toNat fi.2.resolution).map fun lp =>
      ((fi.1 : ℚ) + lp) / ((faces.length : Nat) : ℚ))
  ++ [1]

/-! ### memory-manager.ts -/

/-- A tracked Three.js resource.  `disposeOk` models whether its `dispose()`
call returns normally or throws. -/
structure Res where
  id : Nat
  disposeOk : Bool
deriving DecidableEq

/-- `MemoryManager` state: the four category sets (JS `Set` iterates in
insertion order, modelled as lists) and the optional renderer. -/
structure MemoryManager where
  textures : List Res
  geometries : List Res
  materials : List Res
  renderTargets : List Res
  renderer : Option Res
deriving DecidableEq

/-- A fresh (or fully disposed) manager. -/
def emptyManager : MemoryManager :=
  { textures := [], geometries := [], materials := [], renderTargets := [],
    renderer := none }

/-- One `for (const r of set) r.dispose()` loop: a throwing `dispose()`
aborts the loop and the exception propagates. -/
def disposeSeq : List Res → Except String Unit
  | [] => Except.ok ()
  | r :: rs =>
      if r.disposeOk then disposeSeq rs
      else Except.error "dispose failed"

/-- `MemoryManager.disposeAll`: dispose the textures, geometries, materials
and render targets in that order, clearing each set only after its loop
finishes, then dispose the renderer, force-lose its context, shrink its
canvas and null the reference.  There is no `try`/`catch`, so a throwing
`dispose()` propagates with the state reached so far. -/
def MemoryManager.disposeAll (mm : MemoryManager) :
    Except (String × MemoryManager) MemoryManager :=
  match disposeSeq mm.textures with
  | Except.error e => Except.error (e, mm)
  | Except.ok _ =>
    let mm := { mm with textures := [] }
    match disposeSeq mm.geometries with
    | Except.error e => Except.error (e, mm)
    | Except.ok _ =>
      let mm := { mm with geometries := [] }
      match disposeSeq mm.materials with
      | Except.error e => Except.error (e, mm)
      | Except.ok _ =>
        let mm := { mm with materials := [] }
        match disposeSeq mm.renderTargets with
        | Except.error e => Except.error (e, mm)
        | Except.ok _ =>
          let mm := { mm with renderTargets := [] }
          match mm.renderer with
          | none => Except.ok mm
          | some r =>
              if r.disposeOk then Except.ok { mm with renderer := none }
              else Except.error ("dispose failed", mm)

/-- Decidable check that every tracked resource's `dispose()` succeeds. -/
def allDisposeOk (mm : MemoryManager) : Bool :=
  mm.textures.all Res.disposeOk && mm.geometries.all Res.disposeOk &&
  mm.materials.all Res.disposeOk && mm.renderTargets.all Res.disposeOk &&
  (match mm.renderer with
   | none => true
   | some r => r.disposeOk)

/-! ### reprojector.ts -/

/-- The Three.js resources created by `reprojectToCubeFaces`; their real
`dispose()` implementations return normally. -/
def rendererRes : Res := { id := 0, disposeOk := true }

/-- The panorama texture resource. -/
def textureRes : Res := { id := 1, disposeOk := true }

/-- The inside-out sphere geometry resource. -/
def geometryRes : Res := { id := 2, disposeOk := true }

/-- The basic material resource. -/
def materialRes : Res := { id := 3, disposeOk := true }

/-- The offscreen render target resource. -/
def renderTargetRes : Res := { id := 4, disposeOk := true }

/-- Outcome of a reprojection or pipeline call: the faces produced (success)
or the error message (failure), always together with the tracker state held
by the `Reprojector` instance at the moment the call returns. -/
abbrev ReproResult := Except (String × MemoryManager) (List String × MemoryManager)

/-- `Reprojector.reprojectToCubeFaces`, tracker-state view.  The sequence of
the TS method: create the offscreen canvas and the `WebGLRenderer` and
register the renderer (`memory.setRenderer`); then validate
`cubeResolution` against `min(gl.MAX_TEXTURE_SIZE, this.maxTextureSize)`
and throw on violation (no `try`/`finally`, so the tracker keeps the
renderer); otherwise track texture, geometry, material and render target,
render the six faces of `FACE_CONFIGS` in order, and call `dispose()`
(= `memory.disposeAll()`) before returning the faces. -/
def reprojectToCubeFaces (maxTextureSize glMaxTextureSize cubeResolution : Nat) :
    ReproResult :=
  let mm := { emptyManager with renderer := some rendererRes }
  let effectiveMaxTexture := min glMaxTextureSize maxTextureSize
  if effectiveMaxTexture < cubeResolution then
    Except.error
      ("Cube resolution " ++ toString cubeResolution ++
        " exceeds maximum texture size " ++ toString effectiveMaxTexture, mm)
  else
    let mm := { mm with textures := [textureRes] }
    let mm := { mm with geometries := [geometryRes] }
    let mm := { mm with materials := [materialRes] }
    let mm := { mm with renderTargets := [renderTargetRes] }
    match mm.disposeAll with
    | Except.error e => Except.error e
    | Except.ok mm => Except.ok (FACE_NAMES, mm)

/-- The GPU-relevant control flow of `PannellumTiler.process` after the
source image is loaded: reprojection, then tiling whose tile encodes may
fail (`encodeOk = false` models an `EncodingError` from
`Tiler.extractTile`).  The `catch` block of `process` re-emits and rethrows
the error unchanged; nothing in it touches the reprojector's tracker. -/
def processPipeline (maxTextureSize glMaxTextureSize cubeResolution : Nat)
    (encodeOk : Bool) : ReproResult :=
  match reprojectToCubeFaces maxTextureSize glMaxTextureSize cubeResolution with
  | Except.error e => Except.error e
  | Except.ok (faces, mm) =>
      if encodeOk then Except.ok (faces, mm)
      else Except.error ("Failed to encode tile", mm)

/-- Whether a call returned exceptionally. -/
def isErr : ReproResult → Bool
  | Except.error _ => true
  | Except.ok _ => false

/-- The tracker state at the moment the call returns. -/
def trackerOf : ReproResult → MemoryManager
  | Except.error (_, mm) => mm
  | Except.ok (_, mm) => mm

/-! ### PannellumTiler.ts : event emitter and progress broadcaster -/

/-- A registered or per-call callback; `throws` models whether invoking it
raises. -/
structure Listener where
  throws : Bool
deriving DecidableEq

/-- Invoking one callback. -/
def invokeListener (l : Listener) : Except String Unit :=
  if l.throws then Except.error "listener error" else Except.ok ()

/-- `PannellumTiler.emit`: iterate the registered callbacks, each invocation
wrapped in `try { cb(data) } catch { }`.  The function returns the list of
callbacks that were invoked; its total type shows it never raises. -/
def emit : List Listener → List Listener
  | [] => []
  | cb :: rest =>
      match invokeListener cb with
      | Except.ok _ => cb :: emit rest
      | Except.error _ => cb :: emit rest

/-- The `progress` closure of `PannellumTiler.process`:
`onProgress?.(info); this.emit('progress', info)`.  The per-call
`onProgress` is invoked outside any `try`/`catch`, so its exception
propagates before `emit` runs; on success it returns the registered
listeners that `emit` invoked. -/
def progressBroadcast (onProgress : Option Listener)
    (registered : List Listener) : Except String (List Listener) :=
  match onProgress with
  | some cb =>
      match invokeListener cb with
      | Except.error e => Except.error e
      | Except.ok _ => Except.ok (emit registered)
  | none => Except.ok (emit registered)

/-! ### PannellumTiler.ts : configuration, validation, pipeline output -/

/-- The fields of `ProcessConfig` that the embedded pipeline reads.
`sourceImagePresent` models the truthiness of `config.sourceImage`,
`output` the (possibly invalid) output-mode string, and the optional
numeric fields are `undefined` when `none`. -/
structure ProcessCfg where
  sourceImagePresent : Bool := true
  output : Option String := some "raw"
  quality : Option ℚ := none
  tileSize : Option Int := none
  maxLevelOverride : Option Int := none
  cubeResolutionOverride : Option Nat := none
  fallbackTiles : Bool := false
  imageFormat : ImageFormat := ImageFormat.jpeg

/-- `PannellumTiler.validateConfig`: the synchronous checks, in source
order.  No check reads `maxLevel` or `cubeResolution`. -/
def validateConfig (cfg : ProcessCfg) : Except String Unit :=
  if cfg.sourceImagePresent = false then
    Except.error "sourceImage is required"
  else if cfg.output = none then
    Except.error "output mode is required"
  else if ¬(cfg.output = some "zip" ∨ cfg.output = some "raw" ∨
      cfg.output = some "stream") then
    Except.error "Invalid output mode"
  else
    match cfg.quality with
    | some q =>
        if q < 0 ∨ 1 < q then Except.error "quality must be between 0 and 1"
        else
          match cfg.tileSize with
          | some ts =>
              if ts < 1 then Except.error "tileSize must be a positive integer"
              else Except.ok ()
          | none => Except.ok ()
    | none =>
        match cfg.tileSize with
        | some ts =>
            if ts < 1 then Except.error "tileSize must be a positive integer"
            else Except.ok ()
        | none => Except.ok ()

/-- The tile size actually used by `process` (default `512`). -/
def effectiveTileSizeOf (cfg : ProcessCfg) : Nat := (cfg.tileSize.getD 512).toNat

/-- The cube resolution used by `process`: the caller override, else the
value computed from the source dimensions (passed in as `computedCubeRes`,
standing for `calculateCubeResolution(image.naturalWidth,
image.naturalHeight)`). -/
def cubeResolutionOf (computedCubeRes : Nat) (cfg : ProcessCfg) : Nat :=
  cfg.cubeResolutionOverride.getD computedCubeRes

/-- The maximum level used by `process`: the caller override, else
`calculateMaxLevel(cubeResolution, tileSize)`. -/
def maxLevelOf (computedCubeRes : Nat) (cfg : ProcessCfg) : Int :=
  cfg.maxLevelOverride.getD
    (Int.ofNat (calculateMaxLevel (cubeResolutionOf computedCubeRes cfg)
      (effectiveTileSizeOf cfg)))

/-- The fallback-size argument `process` passes to
`generateFallbackTiles`: the literal `1024` (line
`tiler.generateFallbackTiles(cubeFaces, 1024)`), for every configuration. -/
def fallbackSizeUsed (_cfg : ProcessCfg) : Nat := 1024

/-- The flat tile list `allTiles` built by `PannellumTiler.process`:
pyramid tiles first, then (when `fallbackTiles` is set) the fallback
tiles. -/
def processTiles (computedCubeRes : Nat) (cfg : ProcessCfg) : List TileRec :=
  generateTilePyramid cfg.imageFormat
    (facesOf (cubeResolutionOf computedCubeRes cfg))
    (effectiveTileSizeOf cfg) (maxLevelOf computedCubeRes cfg) ++
  (if cfg.fallbackTiles then
      generateFallbackTiles cfg.imageFormat
        (facesOf (cubeResolutionOf computedCubeRes cfg)) (fallbackSizeUsed cfg)
    else [])

/-- An item of the streaming output. -/
inductive StreamItem where
  | config (path : String)
  | tile (t : TileRec)
deriving DecidableEq

/-- `PannellumTiler.createTileStream`: yield the configuration first, then
each tile of the flat list in order. -/
def createTileStream (tiles : List TileRec) : List StreamItem :=
  StreamItem.config "config.json" :: tiles.map StreamItem.tile

/-- The spec-side enumeration the ordering claims describe: faces in the
fixed canonical order, levels strictly descending from `maxLevel` to `1`
(level `maxLevel - i` at resolution `⌊cubeResolution / 2 ^ i⌋`), tiles
row-major within a level. -/
def canonicalTiles (fmt : ImageFormat) (cubeResolution tileSize maxLevel : Nat) :
    List TileRec :=
  FACE_NAMES.flatMap fun f =>
    (List.range maxLevel).flatMap fun i =>
      (tileCoords (tilesPerSide (cubeResolution / 2 ^ i) tileSize)).map fun p =>
        buildTile fmt tileSize (maxLevel - i) f p.1 p.2

/-! ### Arithmetic helper lemmas -/

theorem clog2Fuel_le_pow (fuel : Nat) :
    ∀ q, q ≤ fuel → q ≤ 2 ^ clog2Fuel fuel q := by
  induction fuel with
  | zero =>
      intro q hq
      have hq0 : q = 0 := Nat.le_zero.mp hq
      subst hq0
      exact Nat.zero_le _
  | succ fuel ih =>
      intro q hq
      rw [clog2Fuel]
      by_cases h1 : q ≤ 1
      · rw [if_pos h1]
        simpa using h1
      · rw [if_neg h1]
        have hrec : (q + 1) / 2 ≤ fuel := by omega
        have hd := ih ((q + 1) / 2) hrec
        have hq2 : q ≤ 2 * ((q + 1) / 2) := by omega
        calc q ≤ 2 * ((q + 1) / 2) := hq2
          _ ≤ 2 * 2 ^ clog2Fuel fuel ((q + 1) / 2) :=
              Nat.mul_le_mul_left 2 hd
          _ = 2 ^ (clog2Fuel fuel ((q + 1) / 2) + 1) := (pow_succ' 2 _).symm

theorem clog2Fuel_min (fuel : Nat) :
    ∀ q k, q ≤ fuel → q ≤ 2 ^ k → clog2Fuel fuel q ≤ k := by
  induction fuel with
  | zero => intro q k _ _; rw [clog2Fuel]; exact Nat.zero_le k
  | succ fuel ih =>
      intro q k hq hk
      rw [clog2Fuel]
      by_cases h1 : q ≤ 1
      · rw [if_pos h1]; exact Nat.zero_le k
      · rw [if_neg h1]
        cases k with
        | zero =>
            rw [pow_zero] at hk
            omega
        | succ k =>
            have hrec : (q + 1) / 2 ≤ fuel := by omega
            have h2k : q ≤ 2 * 2 ^ k := by
              calc q ≤ 2 ^ (k + 1) := hk
                _ = 2 * 2 ^ k := pow_succ' 2 k
            have hk2 : (q + 1) / 2 ≤ 2 ^ k := by omega
            exact Nat.succ_le_succ (ih ((q + 1) / 2) k hrec hk2)

theorem le_pow_ceilLog2 (q : Nat) : q ≤ 2 ^ ceilLog2 q :=
  clog2Fuel_le_pow q q (Nat.le_refl q)

theorem ceilLog2_le {q k : Nat} (h : q ≤ 2 ^ k) : ceilLog2 q ≤ k :=
  clog2Fuel_min q q k (Nat.le_refl q) h

theorem ceilDiv_le_iff {c e m : Nat} (hc : 1 ≤ c) (he : 1 ≤ e) :
    ceilDiv c e ≤ m ↔ c ≤ m * e := by
  unfold ceilDiv
  rw [← Nat.lt_succ_iff, Nat.div_lt_iff_lt_mul he, Nat.succ_mul]
  generalize m * e = P
  omega

theorem le_pow_ceilLog2_mul {c e : Nat} (hc : 1 ≤ c) (he : 1 ≤ e) :
    c ≤ 2 ^ ceilLog2 (ceilDiv c e) * e :=
  (ceilDiv_le_iff hc he).mp (le_pow_ceilLog2 _)

theorem pow_mul_lt_of_lt_ceilLog2 {c e j : Nat} (hc : 1 ≤ c) (he : 1 ≤ e)
    (hj : j < ceilLog2 (ceilDiv c e)) : 2 ^ j * e < c := by
  by_contra h
  push_neg at h
  exact absurd (ceilLog2_le ((ceilDiv_le_iff hc he).mpr h))
    (Nat.not_le.mpr hj)

theorem levelResolution_eq (c : Nat) :
    ∀ n, levelResolution c n = c / 2 ^ n := by
  intro n
  induction n with
  | zero => rw [levelResolution, pow_zero, Nat.div_one]
  | succ n ih =>
      rw [levelResolution, ih, Nat.div_div_eq_div_mul, ← pow_succ]

theorem tilesPerSide_eq_one {r t : Nat} (h1 : 1 ≤ r) (h2 : r ≤ t) :
    tilesPerSide r t = 1 := by
  unfold tilesPerSide ceilDiv
  apply Nat.div_eq_of_lt_le <;> omega

/-- The branch structure of `calculateMaxLevel` with its lets expanded. -/
theorem calculateMaxLevel_eq (c t : Nat) :
    calculateMaxLevel c t =
      if 2 ≤ ceilLog2 (ceilDiv c (min t c)) + 1 ∧
          c / 2 ^ (ceilLog2 (ceilDiv c (min t c)) + 1 - 2) = min t c then
        max 1 (ceilLog2 (ceilDiv c (min t c)) + 1 - 1)
      else max 1 (ceilLog2 (ceilDiv c (min t c)) + 1) := rfl

/-- C3: with `maxLevel = calculateMaxLevel(cubeResolution, tileSize)` and
per-level resolutions halving down from `res(maxLevel) = cubeResolution`,
level 1 resolves to exactly one tile, and the top level has exactly
`ceil(cubeResolution / tileSize)` tiles per side. -/
theorem claim_C3 (c t : Nat) (hc : 1 ≤ c) (ht : 1 ≤ t) :
    tilesPerSide (levelResolution c (calculateMaxLevel c t - 1)) t = 1 ∧
    tilesPerSide
      (levelResolution c (calculateMaxLevel c t - calculateMaxLevel c t)) t =
      tilesPerSide c t := by
  have he : 1 ≤ min t c := le_min ht hc
  have het : min t c ≤ t := min_le_left t c
  constructor
  · have hub := le_pow_ceilLog2_mul hc he
    rw [levelResolution_eq, calculateMaxLevel_eq]
    rcases Nat.eq_zero_or_pos (ceilLog2 (ceilDiv c (min t c))) with hk0 | hkpos
    · rw [hk0]
      norm_num
      have hce : c ≤ min t c := by
        rw [hk0, pow_zero, one_mul] at hub
        exact hub
      exact tilesPerSide_eq_one hc (le_trans hce het)
    · obtain ⟨k', hk'⟩ : ∃ k', ceilLog2 (ceilDiv c (min t c)) = k' + 1 :=
        ⟨ceilLog2 (ceilDiv c (min t c)) - 1, by omega⟩
      rw [hk'] at hub ⊢
      have hcondsimp : (2 ≤ k' + 1 + 1 ∧ c / 2 ^ (k' + 1 + 1 - 2) = min t c) ↔
          c / 2 ^ k' = min t c := by
        constructor
        · intro h
          simpa using h.2
        · intro h
          exact ⟨by omega, by simpa using h⟩
      by_cases hcond : c / 2 ^ k' = min t c
      · rw [if_pos (hcondsimp.mpr hcond)]
        have : max 1 (k' + 1 + 1 - 1) - 1 = k' := by omega
        rw [this, hcond]
        exact tilesPerSide_eq_one he het
      · rw [if_neg (fun h => hcond (hcondsimp.mp h))]
        have hM : max 1 (k' + 1 + 1) - 1 = k' + 1 := by omega
        rw [hM]
        have hup : c / 2 ^ (k' + 1) ≤ min t c := by
          calc c / 2 ^ (k' + 1) ≤ 2 ^ (k' + 1) * min t c / 2 ^ (k' + 1) :=
                Nat.div_le_div_right hub
            _ = min t c := Nat.mul_div_cancel_left _ (pow_pos (by norm_num) _)
        have hlow : 2 ^ k' * min t c < c :=
          pow_mul_lt_of_lt_ceilLog2 hc he (by omega)
        have hge : min t c ≤ c / 2 ^ k' :=
          (Nat.le_div_iff_mul_le (pow_pos (by norm_num) k')).mpr
            (by rw [mul_comm]; exact le_of_lt hlow)
        have hgt : min t c + 1 ≤ c / 2 ^ k' := by
          rcases Nat.lt_or_ge (min t c) (c / 2 ^ k') with h | h
          · omega
          · exact absurd (le_antisymm h hge) hcond
        have hpow : 2 ^ (k' + 1) ≤ c := by
          have h1' : (min t c + 1) * 2 ^ k' ≤ c :=
            (Nat.le_div_iff_mul_le (pow_pos (by norm_num) k')).mp hgt
          calc 2 ^ (k' + 1) = 2 * 2 ^ k' := pow_succ' 2 k'
            _ ≤ (min t c + 1) * 2 ^ k' :=
                Nat.mul_le_mul_right _ (by omega)
            _ ≤ c := h1'
        have hone : 1 ≤ c / 2 ^ (k' + 1) :=
          (Nat.one_le_div_iff (pow_pos (by norm_num) _)).mpr hpow
        exact tilesPerSide_eq_one hone (le_trans hup het)
  · rw [Nat.sub_self, levelResolution]

/-- Witness for C3 at `cubeResolution = 1304`, `tileSize = 512`. -/
theorem claim_C3_witness :
    tilesPerSide (levelResolution 1304 (calculateMaxLevel 1304 512 - 1)) 512 = 1 ∧
    tilesPerSide
      (levelResolution 1304
        (calculateMaxLevel 1304 512 - calculateMaxLevel 1304 512)) 512 =
      tilesPerSide 1304 512 :=
  claim_C3 1304 512 (by decide) (by decide)

/-- C4: `calculateMaxLevel` returns the listed concrete values, and in
general equals `max 1 levels` where `levels = ceil(log2(cubeResolution /
effectiveTileSize)) + 1` (characterised exactly as `k + 1` for the least
`k` with `cubeResolution ≤ 2 ^ k * effectiveTileSize`) decremented by one
when `levels ≥ 2` and `⌊cubeResolution / 2 ^ (levels − 2)⌋` equals the
effective tile size. -/
theorem claim_C4 (c t : Nat) (hc : 1 ≤ c) (ht : 1 ≤ t) :
    calculateMaxLevel 512 512 = 1 ∧ calculateMaxLevel 1024 512 = 2 ∧
    calculateMaxLevel 2048 512 = 3 ∧ calculateMaxLevel 4096 512 = 4 ∧
    1 ≤ calculateMaxLevel 1 1 ∧ calculateMaxLevel 256 512 = 1 ∧
    ∃ k, (c ≤ 2 ^ k * min t c ∧ ∀ j, j < k → 2 ^ j * min t c < c) ∧
      calculateMaxLevel c t =
        max 1 (if 2 ≤ k + 1 ∧ c / 2 ^ (k + 1 - 2) = min t c
               then k + 1 - 1 else k + 1) := by
  refine ⟨by decide, by decide, by decide, by decide, by decide, by decide,
    ceilLog2 (ceilDiv c (min t c)),
    ⟨le_pow_ceilLog2_mul hc (le_min ht hc),
     fun j hj => pow_mul_lt_of_lt_ceilLog2 hc (le_min ht hc) hj⟩, ?_⟩
  rw [calculateMaxLevel_eq, apply_ite (max 1)]

/-- Witness for C4 at `cubeResolution = 1304`, `tileSize = 512`. -/
theorem claim_C4_witness :
    calculateMaxLevel 512 512 = 1 ∧ calculateMaxLevel 1024 512 = 2 ∧
    calculateMaxLevel 2048 512 = 3 ∧ calculateMaxLevel 4096 512 = 4 ∧
    1 ≤ calculateMaxLevel 1 1 ∧ calculateMaxLevel 256 512 = 1 ∧
    ∃ k, (1304 ≤ 2 ^ k * min 512 1304 ∧
        ∀ j, j < k → 2 ^ j * min 512 1304 < 1304) ∧
      calculateMaxLevel 1304 512 =
        max 1 (if 2 ≤ k + 1 ∧ 1304 / 2 ^ (k + 1 - 2) = min 512 1304
               then k + 1 - 1 else k + 1) :=
  claim_C4 1304 512 (by decide) (by decide)

/-! ### Memory manager lemmas and claims C5, C1, C2, C6 -/

theorem disposeSeq_ok {l : List Res} (h : l.all Res.disposeOk = true) :
    disposeSeq l = Except.ok () := by
  induction l with
  | nil => rfl
  | cons r rs ih =>
      simp only [List.all_cons, Bool.and_eq_true] at h
      rw [disposeSeq, if_pos h.1]
      exact ih h.2

/-- A tracker holding one texture whose `dispose()` throws, plus one intact
geometry. -/
def badManager : MemoryManager :=
  { textures := [{ id := 10, disposeOk := false }],
    geometries := [{ id := 11, disposeOk := true }],
    materials := [], renderTargets := [], renderer := none }

/-- C5 counterexample: when disposing an individual resource fails,
`disposeAll` raises (the exception propagates), and the geometry that was
still tracked at that moment is left in the tracker — the failure does
prevent the remaining resources from being released. -/
theorem claim_C5_counterexample :
    MemoryManager.disposeAll badManager =
      Except.error ("dispose failed", badManager) ∧
    badManager.geometries ≠ [] :=
  ⟨rfl, by decide⟩

/-- C5 (amended): provided every individual disposal succeeds,
`disposeAll` never raises, releases everything and clears the sets, and the
call is idempotent and safe on an empty tracker; a disposal failure,
however, propagates out of `disposeAll` (failures are not swallowed). -/
theorem claim_C5 (mm : MemoryManager) (h : allDisposeOk mm = true) :
    MemoryManager.disposeAll mm = Except.ok emptyManager ∧
    MemoryManager.disposeAll emptyManager = Except.ok emptyManager := by
  refine ⟨?_, rfl⟩
  obtain ⟨tex, geo, mat, rt, ren⟩ := mm
  simp only [allDisposeOk, Bool.and_eq_true] at h
  obtain ⟨⟨⟨⟨ht, hg⟩, hm⟩, hrt⟩, hr⟩ := h
  cases ren with
  | none =>
      simp [MemoryManager.disposeAll, disposeSeq_ok ht, disposeSeq_ok hg,
        disposeSeq_ok hm, disposeSeq_ok hrt, emptyManager]
  | some r =>
      have hr' : r.disposeOk = true := by simpa using hr
      simp [MemoryManager.disposeAll, disposeSeq_ok ht, disposeSeq_ok hg,
        disposeSeq_ok hm, disposeSeq_ok hrt, hr', emptyManager]

/-- Witness for C5 on a tracker with a texture and a renderer whose
disposals succeed. -/
theorem claim_C5_witness :
    MemoryManager.disposeAll
      { textures := [{ id := 1, disposeOk := true }], geometries := [],
        materials := [], renderTargets := [],
        renderer := some { id := 0, disposeOk := true } } =
      Except.ok emptyManager ∧
    MemoryManager.disposeAll emptyManager = Except.ok emptyManager :=
  claim_C5 _ (by decide)

/-- C1 counterexample: a cube-resolution limit violation inside
`reprojectToCubeFaces` propagates out of the pipeline while the tracked
renderer is still held — `disposeAll` did not execute before the error
surfaced. -/
theorem claim_C1_counterexample :
    isErr (processPipeline 16384 16384 20000 true) = true ∧
    (trackerOf (processPipeline 16384 16384 20000 true)).renderer ≠ none := by
  decide

/-- C1 (amended): on the reprojection success path `disposeAll` runs before
`reprojectToCubeFaces` returns, so any later failure — in particular a tile
`EncodingError` — propagates with no tracked GPU resource held; but a
cube-resolution limit violation inside `reprojectToCubeFaces` propagates
without `disposeAll`, leaving the registered renderer held. -/
theorem claim_C1 (maxTextureSize glMax c : Nat)
    (h : c ≤ min glMax maxTextureSize) :
    processPipeline maxTextureSize glMax c false =
      Except.error ("Failed to encode tile", emptyManager) ∧
    reprojectToCubeFaces maxTextureSize glMax c =
      Except.ok (FACE_NAMES, emptyManager) := by
  have hrepro : reprojectToCubeFaces maxTextureSize glMax c =
      Except.ok (FACE_NAMES, emptyManager) := by
    unfold reprojectToCubeFaces
    rw [if_neg (Nat.not_lt.mpr h)]
    rfl
  refine ⟨?_, hrepro⟩
  unfold processPipeline
  rw [hrepro]
  rfl

/-- Witness for C1 at an in-limit cube resolution. -/
theorem claim_C1_witness :
    processPipeline 16384 16384 1304 false =
      Except.error ("Failed to encode tile", emptyManager) ∧
    reprojectToCubeFaces 16384 16384 1304 =
      Except.ok (FACE_NAMES, emptyManager) :=
  claim_C1 16384 16384 1304 (by decide)

/-- C2 counterexample: at an over-limit cube resolution the call does fail,
but the renderer context (a rendering resource) was already allocated and
registered with the tracker before the error was raised. -/
theorem claim_C2_counterexample :
    isErr (reprojectToCubeFaces 16384 16384 20000) = true ∧
    (trackerOf (reprojectToCubeFaces 16384 16384 20000)).renderer ≠ none := by
  decide

/-- C2 (amended): for every cube resolution exceeding
`min(configured cap, platform texture limit)` the reprojector raises a
fatal error before the texture, sphere geometry, material or render target
is allocated — but after the offscreen canvas and renderer context have
been created and the renderer registered with the tracker. -/
theorem claim_C2 (maxTextureSize glMax c : Nat)
    (h : min glMax maxTextureSize < c) :
    reprojectToCubeFaces maxTextureSize glMax c =
      Except.error
        ("Cube resolution " ++ toString c ++
          " exceeds maximum texture size " ++
          toString (min glMax maxTextureSize),
         { emptyManager with renderer := some rendererRes }) := by
  unfold reprojectToCubeFaces
  rw [if_pos h]

/-- Witness for C2 at cube resolution `20000` against limit `16384`. -/
theorem claim_C2_witness :
    reprojectToCubeFaces 16384 16384 20000 =
      Except.error
        ("Cube resolution " ++ toString 20000 ++
          " exceeds maximum texture size " ++ toString (min 16384 16384),
         { emptyManager with renderer := some rendererRes }) :=
  claim_C2 16384 16384 20000 (by decide)

theorem emit_eq (l : List Listener) : emit l = l := by
  induction l with
  | nil => rfl
  | cons cb rest ih => cases h : invokeListener cb <;> simp [emit, h, ih]

/-- C6 counterexample: a throwing per-call `onProgress` callback is not
caught — the exception propagates out of the progress broadcaster (and so
aborts the pipeline), and the registered listeners are never reached. -/
theorem claim_C6_counterexample :
    progressBroadcast (some { throws := true }) [{ throws := false }] =
      Except.error "listener error" := rfl

/-- C6 (amended): listeners registered via `on()` are isolated — `emit`
invokes every one of them and never raises, whatever each invocation does —
and a non-throwing per-call `onProgress` leaves the broadcast intact; but a
throwing per-call `onProgress` callback propagates its exception out of the
`progress` closure, skipping the registered listeners and aborting the
pipeline. -/
theorem claim_C6 (registered : List Listener) (good bad : Listener)
    (hg : good.throws = false) (hb : bad.throws = true) :
    emit registered = registered ∧
    progressBroadcast none registered = Except.ok registered ∧
    progressBroadcast (some good) registered = Except.ok registered ∧
    progressBroadcast (some bad) registered =
      Except.error "listener error" := by
  refine ⟨emit_eq registered, ?_, ?_, ?_⟩
  · simp [progressBroadcast, emit_eq]
  · simp [progressBroadcast, invokeListener, hg, emit_eq]
  · simp [progressBroadcast, invokeListener, hb]

/-- Witness for C6 on one well-behaved and one throwing listener. -/
theorem claim_C6_witness :
    emit [{ throws := false }, { throws := true }] =
      [{ throws := false }, { throws := true }] ∧
    progressBroadcast none [{ throws := false }, { throws := true }] =
      Except.ok [{ throws := false }, { throws := true }] ∧
    progressBroadcast (some { throws := false })
      [{ throws := false }, { throws := true }] =
      Except.ok [{ throws := false }, { throws := true }] ∧
    progressBroadcast (some { throws := true })
      [{ throws := false }, { throws := true }] =
      Except.error "listener error" :=
  claim_C6 [{ throws := false }, { throws := true }]
    { throws := false } { throws := true } rfl rfl

/-! ### Tile list structure lemmas and claims C7, C8, C9, C10 -/

theorem flatMap_const_nil {α β : Type} (l : List α) :
    l.flatMap (fun _ => ([] : List β)) = [] := by
  induction l with
  | nil => rfl
  | cons a l ih => simp

theorem levelListAux_eq :
    ∀ (n c : Nat), levelListAux n c =
      (List.range n).map fun i => (n - i, c / 2 ^ i) := by
  intro n
  induction n with
  | zero => intro c; rfl
  | succ n ih =>
      intro c
      rw [levelListAux, List.range_succ_eq_map, List.map_cons, List.map_map,
        ih (c / 2)]
      have hfun : ∀ i : Nat,
          (n - i, c / 2 / 2 ^ i) =
            ((fun i => (n + 1 - i, c / 2 ^ i)) ∘ Nat.succ) i := by
        intro i
        simp only [Function.comp_apply, Nat.succ_sub_succ]
        rw [Nat.div_div_eq_div_mul, ← pow_succ']
      simp only [Nat.sub_zero, pow_zero, Nat.div_one]
      congr 1
      exact List.map_congr_left fun i _ => hfun i

theorem mem_levelListAux {n : Nat} :
    ∀ {c : Nat} {lr : Nat × Nat}, lr ∈ levelListAux n c →
      1 ≤ lr.1 ∧ lr.1 ≤ n ∧ lr.2 = c / 2 ^ (n - lr.1) := by
  induction n with
  | zero => intro c lr h; simp [levelListAux] at h
  | succ n ih =>
      intro c lr h
      rw [levelListAux] at h
      rcases List.mem_cons.mp h with h | h
      · subst h; simp
      · obtain ⟨h1, h2, h3⟩ := ih h
        refine ⟨h1, by omega, ?_⟩
        have hexp : n + 1 - lr.1 = n - lr.1 + 1 := by omega
        rw [h3, Nat.div_div_eq_div_mul, hexp, pow_succ, mul_comm]

theorem generateFaceTiles_eq (fmt : ImageFormat) (t M c : Nat) (name : String) :
    generateFaceTiles fmt t M { name := name, resolution := c } =
      (List.range M).flatMap fun i =>
        (tileCoords (tilesPerSide (c / 2 ^ i) t)).map fun p =>
          buildTile fmt t (M - i) name p.1 p.2 := by
  unfold generateFaceTiles
  rw [levelListAux_eq, List.flatMap_map]

theorem generateTilePyramid_eq_canonical (fmt : ImageFormat) (c t : Nat)
    (m : Int) :
    generateTilePyramid fmt (facesOf c) t m = canonicalTiles fmt c t m.toNat := by
  unfold generateTilePyramid canonicalTiles facesOf
  rw [List.flatMap_map]
  congr 1
  funext n
  exact generateFaceTiles_eq fmt t m.toNat c n

/-- A fallback-enabled configuration at the smallest pyramid. -/
def cfgFB : ProcessCfg := { tileSize := some 1, fallbackTiles := true }

/-- C7 counterexample: in a fallback-enabled stream run the tile sequence is
not the face-major / level-descending enumeration of levels `maxLevel … 1` —
the six level-0 fallback tiles are also yielded, appended after all pyramid
tiles. -/
theorem claim_C7_counterexample :
    createTileStream (processTiles 1 cfgFB) ≠
      StreamItem.config "config.json" ::
        (canonicalTiles ImageFormat.jpeg 1 1 1).map StreamItem.tile := by
  intro h
  exact absurd (congrArg List.length h) (by decide)

/-- C7 (amended): the stream yields the descriptor first, then every
pyramid tile exactly once in face-major (f, r, b, l, u, d),
level-descending (`maxLevel → 1`), row-major order, followed — when
fallback tiles are enabled — by exactly one level-0 fallback tile per face
in face order; the sequence length is the structured-mode tile count plus
one. -/
theorem claim_C7 (computedCubeRes : Nat) (cfg : ProcessCfg) :
    createTileStream (processTiles computedCubeRes cfg) =
      StreamItem.config "config.json" ::
        (canonicalTiles cfg.imageFormat (cubeResolutionOf computedCubeRes cfg)
            (effectiveTileSizeOf cfg) (maxLevelOf computedCubeRes cfg).toNat ++
          (if cfg.fallbackTiles then
              generateFallbackTiles cfg.imageFormat
                (facesOf (cubeResolutionOf computedCubeRes cfg)) 1024
            else [])).map StreamItem.tile ∧
    (createTileStream (processTiles computedCubeRes cfg)).length =
      (processTiles computedCubeRes cfg).length + 1 := by
  refine ⟨?_, ?_⟩
  · unfold processTiles
    rw [generateTilePyramid_eq_canonical]
    rfl
  · simp [createTileStream]

theorem pyramid_tile_shape {fmt : ImageFormat} {faces : List CubeFace}
    {t : Nat} {M : Int} {tr : TileRec}
    (h : tr ∈ generateTilePyramid fmt faces t M) :
    tr.path = toString tr.level ++ "/" ++ tr.face ++ "/" ++ toString tr.x ++
      "_" ++ toString tr.y ++ "." ++ extFor fmt ∧ 1 ≤ tr.level := by
  unfold generateTilePyramid at h
  rcases List.mem_flatMap.mp h with ⟨face, _, hface⟩
  unfold generateFaceTiles at hface
  rcases List.mem_flatMap.mp hface with ⟨lr, hlr, htr⟩
  rcases List.mem_map.mp htr with ⟨p, _, rfl⟩
  exact ⟨rfl, (mem_levelListAux hlr).1⟩

/-- C8: every pyramid tile's path is `{level}/{face}/{column}_{row}.{ext}`
built from its own fields with extension `jpg` for jpeg and `webp` for
webp, and `generateFallbackTiles` yields exactly one level-0 tile per face
at path `fallback/{face}.{ext}`. -/
theorem claim_C8 (fmt : ImageFormat) (faces : List CubeFace) (t : Nat)
    (M : Int) (s : Nat) (tr ftr : TileRec)
    (h1 : tr ∈ generateTilePyramid fmt faces t M)
    (h2 : ftr ∈ generateFallbackTiles fmt faces s) :
    tr.path = toString tr.level ++ "/" ++ tr.face ++ "/" ++ toString tr.x ++
      "_" ++ toString tr.y ++ "." ++ extFor fmt ∧
    1 ≤ tr.level ∧
    ftr.level = 0 ∧
    ftr.path = "fallback/" ++ ftr.face ++ "." ++ extFor fmt ∧
    (generateFallbackTiles fmt faces s).map TileRec.face =
      faces.map CubeFace.name ∧
    extFor ImageFormat.jpeg = "jpg" ∧ extFor ImageFormat.webp = "webp" := by
  obtain ⟨hpath, hlev⟩ := pyramid_tile_shape h1
  rcases List.mem_map.mp h2 with ⟨face, _, rfl⟩
  refine ⟨hpath, hlev, rfl, rfl, ?_, rfl, rfl⟩
  simp [generateFallbackTiles, List.map_map, Function.comp]

/-- The level-1 front tile of a unit cube face. -/
def samplePyramidTile : TileRec :=
  { path := "1/f/0_0.jpg", level := 1, face := "f", x := 0, y := 0,
    outputSize := 1 }

/-- The front fallback tile at fallback size 8. -/
def sampleFallbackTile : TileRec :=
  { path := "fallback/f.jpg", level := 0, face := "f", x := 0, y := 0,
    outputSize := 8 }

/-- Witness for C8 on the one-tile pyramid of a unit cube face. -/
theorem claim_C8_witness :
    samplePyramidTile.path =
      toString samplePyramidTile.level ++ "/" ++ samplePyramidTile.face ++
        "/" ++ toString samplePyramidTile.x ++ "_" ++
        toString samplePyramidTile.y ++ "." ++ extFor ImageFormat.jpeg ∧
    1 ≤ samplePyramidTile.level ∧
    sampleFallbackTile.level = 0 ∧
    sampleFallbackTile.path =
      "fallback/" ++ sampleFallbackTile.face ++ "." ++
        extFor ImageFormat.jpeg ∧
    (generateFallbackTiles ImageFormat.jpeg (facesOf 1) 8).map TileRec.face =
      (facesOf 1).map CubeFace.name ∧
    extFor ImageFormat.jpeg = "jpg" ∧ extFor ImageFormat.webp = "webp" :=
  claim_C8 ImageFormat.jpeg (facesOf 1) 1 1 8 samplePyramidTile
    sampleFallbackTile (by decide) (by decide)

/-- C9: with `fallbackTiles` enabled, `process` always passes the literal
`1024` as fallback size — no configuration field influences it — and the
result is the pyramid tiles followed by exactly 6 level-0 fallback tiles of
output size 1024. -/
theorem claim_C9 (computedCubeRes : Nat) (cfg : ProcessCfg)
    (h : cfg.fallbackTiles = true) (tr : TileRec)
    (htr : tr ∈ generateFallbackTiles cfg.imageFormat
      (facesOf (cubeResolutionOf computedCubeRes cfg)) (fallbackSizeUsed cfg)) :
    fallbackSizeUsed cfg = 1024 ∧
    processTiles computedCubeRes cfg =
      generateTilePyramid cfg.imageFormat
          (facesOf (cubeResolutionOf computedCubeRes cfg))
          (effectiveTileSizeOf cfg) (maxLevelOf computedCubeRes cfg) ++
        generateFallbackTiles cfg.imageFormat
          (facesOf (cubeResolutionOf computedCubeRes cfg)) 1024 ∧
    (generateFallbackTiles cfg.imageFormat
        (facesOf (cubeResolutionOf computedCubeRes cfg)) 1024).length = 6 ∧
    tr.outputSize = 1024 ∧ tr.level = 0 := by
  refine ⟨rfl, ?_, ?_, ?_⟩
  · unfold processTiles
    rw [if_pos h]
    rfl
  · simp [generateFallbackTiles, facesOf, FACE_NAMES]
  · rcases List.mem_map.mp htr with ⟨face, _, rfl⟩
    exact ⟨rfl, rfl⟩

/-- The front fallback tile at the fixed fallback size 1024. -/
def sampleFallbackTile1024 : TileRec :=
  { path := "fallback/f.jpg", level := 0, face := "f", x := 0, y := 0,
    outputSize := 1024 }

/-- Witness for C9 on a fallback-enabled configuration. -/
theorem claim_C9_witness :
    fallbackSizeUsed cfgFB = 1024 ∧
    processTiles 1 cfgFB =
      generateTilePyramid cfgFB.imageFormat (facesOf (cubeResolutionOf 1 cfgFB))
          (effectiveTileSizeOf cfgFB) (maxLevelOf 1 cfgFB) ++
        generateFallbackTiles cfgFB.imageFormat
          (facesOf (cubeResolutionOf 1 cfgFB)) 1024 ∧
    (generateFallbackTiles cfgFB.imageFormat
        (facesOf (cubeResolutionOf 1 cfgFB)) 1024).length = 6 ∧
    sampleFallbackTile1024.outputSize = 1024 ∧
    sampleFallbackTile1024.level = 0 :=
  claim_C9 1 cfgFB rfl sampleFallbackTile1024 (by decide)

/-- C10: `validateConfig` ignores the `maxLevel` and `cubeResolution`
overrides; `generateTilePyramid` with `maxLevel ≤ 0` returns the empty tile
list while still reporting completion progress 1; and a level whose halved
resolution has reached 0 contributes zero tiles. -/
theorem claim_C10 (fmt : ImageFormat) (faces : List CubeFace) (t : Nat)
    (ml : Int) (hml : ml ≤ 0) (cfg : ProcessCfg) (m : Option Int)
    (co : Option Nat) (c M lv : Nat) (_hlv1 : 1 ≤ lv) (_hlvM : lv ≤ M)
    (h0 : c / 2 ^ (M - lv) = 0) (name : String) :
    generateTilePyramid fmt faces t ml = [] ∧
    tilingProgressValues faces t ml = [1] ∧
    validateConfig
      { cfg with maxLevelOverride := m, cubeResolutionOverride := co } =
      validateConfig cfg ∧
    (generateFaceTiles fmt t M { name := name, resolution := c }).filter
      (fun tr => tr.level == lv) = [] := by
  have htn : ml.toNat = 0 := Int.toNat_of_nonpos hml
  refine ⟨?_, ?_, rfl, ?_⟩
  · unfold generateTilePyramid generateFaceTiles
    rw [htn]
    simp [levelListAux, flatMap_const_nil]
  · unfold tilingProgressValues faceProgressValues
    rw [htn]
    simp [levelListAux, flatMap_const_nil]
  · rw [List.filter_eq_nil_iff]
    intro tr htr
    unfold generateFaceTiles at htr
    rcases List.mem_flatMap.mp htr with ⟨lr, hlr, htr2⟩
    rcases List.mem_map.mp htr2 with ⟨p, hp, rfl⟩
    obtain ⟨hl1, hl2, hl3⟩ := mem_levelListAux hlr
    simp only [beq_iff_eq]
    intro heq
    have hres : lr.2 = 0 := by
      rw [hl3]
      have : (lr.1 : Nat) = lv := heq
      rw [this, h0]
    have hzero : tilesPerSide lr.2 t = 0 := by
      rw [hres]
      unfold tilesPerSide ceilDiv
      rcases Nat.eq_zero_or_pos t with ht0 | htpos
      · rw [ht0]
      · exact Nat.div_eq_of_lt (by omega)
    rw [hzero] at hp
    simp [tileCoords] at hp

/-- Witness for C10 at `maxLevel = 0` and a resolution that bottoms out at
zero. -/
theorem claim_C10_witness :
    generateTilePyramid ImageFormat.jpeg (facesOf 2) 1 0 = [] ∧
    tilingProgressValues (facesOf 2) 1 0 = [1] ∧
    validateConfig
      { cfgFB with
          maxLevelOverride := some 5, cubeResolutionOverride := some 7 } =
      validateConfig cfgFB ∧
    (generateFaceTiles ImageFormat.jpeg 1 3
        { name := "f", resolution := 1 }).filter
      (fun tr => tr.level == 1) = [] :=
  claim_C10 ImageFormat.jpeg (facesOf 2) 1 0 (by decide) cfgFB (some 5)
    (some 7) 1 3 1 (by decide) (by decide) (by decide) "f"

end PannellumTiles
